import Mathlib

/-!
Verification of the access & subscription controller of `src/mistral_ai.py`.

The persisted state is one SQLite table `users` keyed by `user_id`
(a PRIMARY KEY, hence at most one row per user).  We embed the table as a
function from user ids to optional records; `none` means "no row for that
user".  Wall-clock instants are naturals (seconds); the calendar date used
for the daily quota is derived from the instant, mirroring
`datetime.now().strftime("%Y-%m-%d")`.  Each `async` database operation of
the source becomes a pure state transformer on the store.
-/

namespace MistralBot

/-- `MAX_FREE_REQUESTS_PER_DAY = 10` from the source configuration block. -/
def MAX_FREE_REQUESTS_PER_DAY : Nat := 10

/-- One row of the `users` table (`init_db`): `subscribed_until TEXT`
(an ISO timestamp, here an instant in seconds), `last_request_date TEXT`
(a calendar date), `requests_today INTEGER DEFAULT 0`, `invoice_id TEXT`. -/
structure UserRecord where
  subscribed_until : Option Nat
  last_request_date : Option Nat
  requests_today : Nat
  invoice_id : Option String
  deriving DecidableEq, Repr

/-- The `users` table: at most one row per `user_id` (PRIMARY KEY). -/
def Store : Type := Nat → Option UserRecord

/-- The empty table, as created by `init_db`. -/
def emptyStore : Store := fun _ => none

/-- `INSERT INTO users ...` for a fresh user id. -/
def insertRow (store : Store) (uid : Nat) (r : UserRecord) : Store :=
  fun u => if u = uid then some r else store u

/-- `UPDATE users SET ... WHERE user_id = ?`: rewrites the matching row if
one exists, touches nothing otherwise (the update matches no row). -/
def updateRow (store : Store) (uid : Nat) (f : UserRecord → UserRecord) : Store :=
  fun u => if u = uid then (store u).map f else store u

/-- The calendar date of an instant, standing for
`datetime.now().strftime("%Y-%m-%d")` (seconds grouped into days). -/
def dateOf (t : Nat) : Nat := t / 86400

/-- The subscription test of `check_access`:
`subscribed_until and datetime.now() < datetime.fromisoformat(subscribed_until)`
— present and strictly later than now. -/
def hasActiveSub (now : Nat) (u : UserRecord) : Bool :=
  match u.subscribed_until with
  | some t => decide (now < t)
  | none => false

/-- `check_access(user_id)` from the source, lines 184-229.  Reads the row;
a missing row is inserted with `last_request_date = today, requests_today = 1`
and the call admits; an active subscription admits with no write; a stale
`last_request_date` is rolled over to `today` with `requests_today = 1` and
the call admits; below the daily limit the counter is incremented and the
call admits; otherwise it denies with no write. -/
def check_access (now uid : Nat) (store : Store) : Bool × Store :=
  let today := dateOf now
  match store uid with
  | none =>
      (true, insertRow store uid
        { subscribed_until := none, last_request_date := some today
          requests_today := 1, invoice_id := none })
  | some u =>
      if hasActiveSub now u then (true, store)
      else if u.last_request_date ≠ some today then
        (true, updateRow store uid fun r =>
          { r with last_request_date := some today, requests_today := 1 })
      else if u.requests_today < MAX_FREE_REQUESTS_PER_DAY then
        (true, updateRow store uid fun r =>
          { r with requests_today := r.requests_today + 1 })
      else (false, store)

/-- `get_remaining_requests(user_id)`, lines 232-251: a pure read
(`SELECT` only, no write). -/
def get_remaining_requests (now uid : Nat) (store : Store) : Nat :=
  let today := dateOf now
  match store uid with
  | none => MAX_FREE_REQUESTS_PER_DAY
  | some u =>
      if u.last_request_date ≠ some today then MAX_FREE_REQUESTS_PER_DAY
      else max 0 (MAX_FREE_REQUESTS_PER_DAY - u.requests_today)

/-- `update_subscription(user_id, months)`, lines 254-268: overwrites
`subscribed_until` with `now + timedelta(days=30*months)` on the matching
row (`UPDATE ... WHERE user_id = ?`). -/
def update_subscription (now uid months : Nat) (store : Store) : Store :=
  updateRow store uid fun r =>
    { r with subscribed_until := some (now + 86400 * (30 * months)) }

/-- `reset_daily_limits()`, lines 61-67:
`UPDATE users SET requests_today = 0` over every row. -/
def reset_daily_limits (store : Store) : Store :=
  fun u => (store u).map fun r => { r with requests_today := 0 }

/-- What the payment provider's status endpoint produces towards
`check_invoice_status`: either the HTTP/JSON layer raises (`aiohttp` error,
body not JSON — there is no `try`/`except` around it in the source), or a
JSON body whose `result.status` field is the given optional string
(`data.get("result", {}).get("status", "error")`). -/
inductive ProviderReply where
  | transportError : ProviderReply
  | reply (result_status : Option String) : ProviderReply
  deriving DecidableEq, Repr

/-- `check_invoice_status(invoice_id)`, lines 121-137: returns the
provider's `result.status` string, defaulting to `"error"` when the field
is absent; a transport-level failure is NOT caught and propagates as an
exception (`Except.error`). -/
def check_invoice_status : ProviderReply → Except Unit String
  | ProviderReply.transportError => Except.error ()
  | ProviderReply.reply st => Except.ok (st.getD "error")

/-- Outcome of the `check_payment` handler towards the user. -/
inductive PaymentOutcome where
  | activated
  | notFound
  | raised
  deriving DecidableEq, Repr

/-- `check_payment` callback handler, lines 346-372: polls the invoice
status; on the literal `"paid"` it calls `update_subscription(user, 1)` and
confirms activation, on any other status it answers "payment not found"
with no state change, and an exception from `check_invoice_status`
propagates out of the handler untouched. -/
def check_payment (now uid : Nat) (pr : ProviderReply) (store : Store) :
    PaymentOutcome × Store :=
  match check_invoice_status pr with
  | Except.error _ => (PaymentOutcome.raised, store)
  | Except.ok status =>
      if status = "paid" then
        (PaymentOutcome.activated, update_subscription now uid 1 store)
      else
        (PaymentOutcome.notFound, store)

/-- Modelled from the spec: `GetOrCreate(userId)` of §4.1, a store
operation the source does not expose separately — "returns the existing
record or creates one with `lastRequestDate` = today, `requestsToday` = 0,
no subscription, no pending invoice". -/
def getOrCreate (today uid : Nat) (store : Store) : UserRecord × Store :=
  match store uid with
  | some r => (r, store)
  | none =>
      let r : UserRecord :=
        { subscribed_until := none, last_request_date := some today
          requests_today := 0, invoice_id := none }
      (r, insertRow store uid r)

/-- Modelled from the spec: the `Admit` algorithm of §4.2 stated in the
spec's own words — load or create the record; admit with no mutation under
an active subscription; on a date rollover set `lastRequestDate = today`,
`requestsToday = 1` and admit; under the limit increment and admit;
otherwise deny with no mutation. -/
def admit_spec (now uid : Nat) (store : Store) : Bool × Store :=
  let today := dateOf now
  let p := getOrCreate today uid store
  let u := p.1
  let s1 := p.2
  if hasActiveSub now u then (true, s1)
  else if u.last_request_date ≠ some today then
    (true, updateRow s1 uid fun r =>
      { r with last_request_date := some today, requests_today := 1 })
  else if u.requests_today < MAX_FREE_REQUESTS_PER_DAY then
    (true, updateRow s1 uid fun r =>
      { r with requests_today := r.requests_today + 1 })
  else (false, s1)

/-- Concrete stores used to instantiate the theorems below. -/
def demoStore : Store := fun u =>
  if u = 3 then
    some { subscribed_until := none, last_request_date := some 1
           requests_today := 2, invoice_id := none }
  else none

/-- A store whose single user holds an active subscription yet an exhausted
daily counter. -/
def subStore : Store := fun u =>
  if u = 4 then
    some { subscribed_until := some 100, last_request_date := some 0
           requests_today := 10, invoice_id := none }
  else none

/-- Updating the row just inserted rewrites it in place. -/
theorem updateRow_insertRow (store : Store) (uid : Nat) (r : UserRecord)
    (f : UserRecord → UserRecord) :
    updateRow (insertRow store uid r) uid f = insertRow store uid (f r) := by
  funext u
  by_cases hu : u = uid <;> simp [updateRow, insertRow, hu]

/-- C1: `check_access` computes, for every user, every instant and every
starting store, exactly the admission algorithm of the spec — load or
create, subscription overrides quota with no mutation, date rollover grants
one fresh counted request, quota increments exactly once per admitted free
request, otherwise deny with no mutation.  Atomicity per user is rendered
by the sequential state transformer. -/
theorem check_access_matches_admit_spec (now uid : Nat) (store : Store) :
    check_access now uid store = admit_spec now uid store := by
  unfold check_access admit_spec getOrCreate
  cases h : store uid with
  | some u => simp [h]
  | none =>
      simp only [h, hasActiveSub, MAX_FREE_REQUESTS_PER_DAY]
      norm_num
      rw [updateRow_insertRow]

/-- C2: the code lacks any per-invoice activation guard: polling the same
paid invoice a second time calls `update_subscription` again and overwrites
`subscribed_until` with a fresh `now + 30 days`, so activation is not
idempotent.  Concretely, user 7 polls a paid invoice at instant 1000
(subscription set to 2593000) and re-polls it at instant 5000000; the
handler reports activation again and the subscription moves to 7592000. -/
theorem check_payment_repoll_extends_again :
    (((check_payment 1000 7 (ProviderReply.reply (some "paid"))
        (fun u => if u = 7 then
          some { subscribed_until := none, last_request_date := some 0
                 requests_today := 1, invoice_id := none }
        else none)).2) 7).map UserRecord.subscribed_until
      = some (some 2593000) ∧
    (((check_payment 5000000 7 (ProviderReply.reply (some "paid"))
        ((check_payment 1000 7 (ProviderReply.reply (some "paid"))
          (fun u => if u = 7 then
            some { subscribed_until := none, last_request_date := some 0
                   requests_today := 1, invoice_id := none }
          else none)).2)).2) 7).map UserRecord.subscribed_until
      = some (some 7592000) ∧
    (check_payment 5000000 7 (ProviderReply.reply (some "paid"))
        ((check_payment 1000 7 (ProviderReply.reply (some "paid"))
          (fun u => if u = 7 then
            some { subscribed_until := none, last_request_date := some 0
                   requests_today := 1, invoice_id := none }
          else none)).2)).1 = PaymentOutcome.activated := by
  refine ⟨rfl, rfl, rfl⟩

/-- C3 counterexample: a transport-level failure while polling the invoice
status is not caught anywhere in `check_invoice_status` (unlike invoice
creation, which wraps its request in `try`/`except`), so the raw exception
propagates to the caller instead of being surfaced as a non-paid status. -/
theorem poll_transport_error_raises :
    check_invoice_status ProviderReply.transportError = Except.error () := rfl

/-- C3 amended: whenever `check_invoice_status` does return a status, that
status is `"paid"` exactly when the provider's body literally carried
`result.status = "paid"` — a missing field defaults to `"error"` — and for
every reply other than the literal paid marker `check_payment` never
activates and never mutates the store; a transport failure, however,
escapes as an exception rather than as a "not confirmed yet" outcome. -/
theorem poll_nonpaid_never_activates (pr : ProviderReply) (now uid : Nat)
    (store : Store) :
    (∀ s, check_invoice_status pr = Except.ok s →
      (s = "paid" ↔ pr = ProviderReply.reply (some "paid"))) ∧
    (pr ≠ ProviderReply.reply (some "paid") →
      (check_payment now uid pr store).1 ≠ PaymentOutcome.activated ∧
      (check_payment now uid pr store).2 = store) := by
  constructor
  · intro s hs
    cases pr with
    | transportError => exact absurd hs (by simp [check_invoice_status])
    | reply st =>
        simp only [check_invoice_status, Except.ok.injEq] at hs
        subst hs
        cases st with
        | none => simp
        | some v => simp
  · intro hne
    cases pr with
    | transportError =>
        exact ⟨by simp [check_payment, check_invoice_status], rfl⟩
    | reply st =>
        cases st with
        | none =>
            refine ⟨?_, ?_⟩ <;> simp [check_payment, check_invoice_status]
        | some v =>
            have hv : v ≠ "paid" := by
              intro hv; exact hne (by rw [hv])
            refine ⟨?_, ?_⟩ <;>
              simp [check_payment, check_invoice_status, hv]

/-- C3 witness: a `"created"` status yields no activation and no store
change. -/
theorem poll_nonpaid_never_activates_witness :
    (check_payment 0 1 (ProviderReply.reply (some "created")) emptyStore).1
        ≠ PaymentOutcome.activated ∧
    (check_payment 0 1 (ProviderReply.reply (some "created")) emptyStore).2
        = emptyStore :=
  (poll_nonpaid_never_activates (ProviderReply.reply (some "created"))
    0 1 emptyStore).2 (by decide)

/-- C4 counterexample: the row inserted by a fresh user's first
`check_access` carries `requests_today = 1` (the admitting request is
already counted by the `INSERT`), not `0` as the claim states. -/
theorem first_insert_counts_one :
    ((check_access 0 5 emptyStore).2 5).map UserRecord.requests_today
        = some 1 ∧
    ((check_access 0 5 emptyStore).2 5).map UserRecord.requests_today
        ≠ some 0 := by
  refine ⟨rfl, by decide⟩

/-- C4 amended: a user with no row is admitted on first request, and the
row created for them at that moment has `last_request_date = today`,
`requests_today = 1`, no subscription and no pending invoice; creation is
lazy — the informational read performed on first contact
(`get_remaining_requests`, a pure `SELECT`) creates nothing and reports the
full daily limit. -/
theorem first_admitted_request_creates_record (now uid : Nat) (store : Store)
    (h : store uid = none) :
    (check_access now uid store).1 = true ∧
    (check_access now uid store).2 uid =
      some { subscribed_until := none, last_request_date := some (dateOf now)
             requests_today := 1, invoice_id := none } ∧
    get_remaining_requests now uid store = MAX_FREE_REQUESTS_PER_DAY := by
  unfold check_access get_remaining_requests
  simp [h, insertRow]

/-- C4 witness: the first admitted request of user 5 on the empty table. -/
theorem first_admitted_request_creates_record_witness :
    (check_access 0 5 emptyStore).1 = true ∧
    (check_access 0 5 emptyStore).2 5 =
      some { subscribed_until := none, last_request_date := some (dateOf 0)
             requests_today := 1, invoice_id := none } ∧
    get_remaining_requests 0 5 emptyStore = MAX_FREE_REQUESTS_PER_DAY :=
  first_admitted_request_creates_record 0 5 emptyStore rfl

/-- C5: `update_subscription` overwrites `subscribed_until` with
`now + 30*months` days regardless of the previous value, and two
back-to-back one-month extensions leave the window at 30 days from the
second call's instant, not 60. -/
theorem update_subscription_overwrites (now now1 now2 uid months : Nat)
    (store : Store) (r : UserRecord) (h : store uid = some r) :
    (update_subscription now uid months store) uid =
      some { r with subscribed_until := some (now + 86400 * (30 * months)) } ∧
    (update_subscription now2 uid 1 (update_subscription now1 uid 1 store)) uid =
      some { r with subscribed_until := some (now2 + 86400 * 30) } := by
  unfold update_subscription updateRow
  simp [h]

/-- C5 witness: extending user 3 of the demo table twice in succession. -/
theorem update_subscription_overwrites_witness :
    (update_subscription 500 3 2 demoStore) 3 =
      some { subscribed_until := some (500 + 86400 * (30 * 2))
             last_request_date := some 1, requests_today := 2
             invoice_id := none } ∧
    (update_subscription 900 3 1 (update_subscription 700 3 1 demoStore)) 3 =
      some { subscribed_until := some (900 + 86400 * 30)
             last_request_date := some 1, requests_today := 2
             invoice_id := none } :=
  update_subscription_overwrites 500 700 900 3 2 demoStore
    { subscribed_until := none, last_request_date := some 1
      requests_today := 2, invoice_id := none } rfl

/-- C6: a record whose `subscribed_until` lies strictly after `now` is
admitted whatever `requests_today` holds, and the whole store — hence the
whole record, counter, date and subscription included — is returned
untouched. -/
theorem active_subscription_admits_without_mutation (now t uid : Nat)
    (store : Store) (r : UserRecord) (h : store uid = some r)
    (hs : r.subscribed_until = some t) (hlt : now < t) :
    check_access now uid store = (true, store) := by
  unfold check_access
  simp [h, hasActiveSub, hs, hlt]

/-- C6 witness: user 4 holds a subscription until instant 100 and an
exhausted counter of 10, yet is admitted at instant 50 with no change. -/
theorem active_subscription_admits_without_mutation_witness :
    check_access 50 4 subStore = (true, subStore) :=
  active_subscription_admits_without_mutation 50 100 4 subStore
    { subscribed_until := some 100, last_request_date := some 0
      requests_today := 10, invoice_id := none } rfl rfl (by decide)

/-- C7: a fresh user's first `check_access` admits and the remaining count
read immediately afterwards is 9; `get_remaining_requests` — a pure read —
returns the full limit on a missing row or a stale `last_request_date`, and
`max 0 (limit - requests_today)` otherwise. -/
theorem remaining_requests_spec (now uid : Nat) (store : Store) :
    (store uid = none →
      (check_access now uid store).1 = true ∧
      get_remaining_requests now uid (check_access now uid store).2 = 9 ∧
      get_remaining_requests now uid store = MAX_FREE_REQUESTS_PER_DAY) ∧
    (∀ r, store uid = some r → r.last_request_date ≠ some (dateOf now) →
      get_remaining_requests now uid store = MAX_FREE_REQUESTS_PER_DAY) ∧
    (∀ r, store uid = some r → r.last_request_date = some (dateOf now) →
      get_remaining_requests now uid store =
        max 0 (MAX_FREE_REQUESTS_PER_DAY - r.requests_today)) := by
  refine ⟨?_, ?_, ?_⟩
  · intro h
    unfold check_access get_remaining_requests
    simp [h, insertRow, MAX_FREE_REQUESTS_PER_DAY]
  · intro r h hd
    unfold get_remaining_requests
    simp [h, hd]
  · intro r h hd
    unfold get_remaining_requests
    simp [h, hd]

/-- C7 witness: user 3 of the empty table. -/
theorem remaining_requests_spec_witness :
    (check_access 0 3 emptyStore).1 = true ∧
    get_remaining_requests 0 3 (check_access 0 3 emptyStore).2 = 9 ∧
    get_remaining_requests 0 3 emptyStore = MAX_FREE_REQUESTS_PER_DAY :=
  (remaining_requests_spec 0 3 emptyStore).1 rfl

/-- Every row of the store is within the daily free limit. -/
def storeRespectsLimit (store : Store) : Prop :=
  ∀ uid r, store uid = some r →
    r.requests_today ≤ MAX_FREE_REQUESTS_PER_DAY

/-- Inserting a row whose counter is within the limit preserves the
store-wide bound. -/
theorem storeRespectsLimit_insertRow (store : Store) (uid : Nat)
    (r : UserRecord) (hinv : storeRespectsLimit store)
    (hr : r.requests_today ≤ MAX_FREE_REQUESTS_PER_DAY) :
    storeRespectsLimit (insertRow store uid r) := by
  intro u q hq
  unfold insertRow at hq
  by_cases hu : u = uid
  · simp [hu] at hq
    exact hq ▸ hr
  · simp [hu] at hq
    exact hinv u q hq

/-- Rewriting one row preserves the store-wide bound as soon as the rewrite
keeps that row's counter within the limit. -/
theorem storeRespectsLimit_updateRow (store : Store) (uid : Nat)
    (f : UserRecord → UserRecord) (hinv : storeRespectsLimit store)
    (hf : ∀ r, store uid = some r →
      (f r).requests_today ≤ MAX_FREE_REQUESTS_PER_DAY) :
    storeRespectsLimit (updateRow store uid f) := by
  intro u q hq
  unfold updateRow at hq
  by_cases hu : u = uid
  · subst hu
    cases hs : store u with
    | none => simp [hs] at hq
    | some p =>
        simp [hs] at hq
        exact hq ▸ hf p hs
  · simp [hu] at hq
    exact hinv u q hq

/-- C8: each operation of the core — admission, subscription extension and
the scheduler's bulk reset — keeps every row's `requests_today` at or below
`MAX_FREE_REQUESTS_PER_DAY` whenever that bound held beforehand: inserts
and rollovers write 1, the increment branch is guarded by `< limit`, and
the other writes leave the counter alone or zero it. -/
theorem operations_preserve_daily_limit (store : Store)
    (hinv : storeRespectsLimit store) :
    (∀ now uid, storeRespectsLimit (check_access now uid store).2) ∧
    (∀ now uid months,
      storeRespectsLimit (update_subscription now uid months store)) ∧
    storeRespectsLimit (reset_daily_limits store) := by
  refine ⟨?_, ?_, ?_⟩
  · intro now uid
    unfold check_access
    cases h : store uid with
    | none =>
        exact storeRespectsLimit_insertRow store uid _ hinv
          (by simp [MAX_FREE_REQUESTS_PER_DAY])
    | some urec =>
        dsimp only
        by_cases hsub : hasActiveSub now urec = true
        · rw [if_pos hsub]
          exact hinv
        · rw [if_neg hsub]
          by_cases hd : urec.last_request_date ≠ some (dateOf now)
          · rw [if_pos hd]
            exact storeRespectsLimit_updateRow store uid _ hinv
              (fun r _ => by simp [MAX_FREE_REQUESTS_PER_DAY])
          · rw [if_neg hd]
            by_cases hq : urec.requests_today < MAX_FREE_REQUESTS_PER_DAY
            · rw [if_pos hq]
              refine storeRespectsLimit_updateRow store uid _ hinv ?_
              intro r hrow
              rw [h] at hrow
              cases Option.some.inj hrow
              simp only [MAX_FREE_REQUESTS_PER_DAY] at hq ⊢
              omega
            · rw [if_neg hq]
              exact hinv
  · intro now uid months
    refine storeRespectsLimit_updateRow store uid _ hinv ?_
    intro r hrow
    exact hinv uid r hrow
  · intro u r hr
    unfold reset_daily_limits at hr
    cases h : store u with
    | none => simp [h] at hr
    | some urec =>
        simp [h] at hr
        exact hr ▸ Nat.zero_le _

/-- C8 witness: the bound is preserved across an admission on the demo
table, whose single counter stands at 2. -/
theorem operations_preserve_daily_limit_witness :
    storeRespectsLimit (check_access 200000 3 demoStore).2 :=
  (operations_preserve_daily_limit demoStore
    (by
      intro uid r h
      unfold demoStore at h
      by_cases hu : uid = 3
      · simp [hu] at h
        simp [← h, MAX_FREE_REQUESTS_PER_DAY]
      · simp [hu] at h)).1 200000 3

/-- C9: the scheduler's bulk reset zeroes `requests_today` on every
existing row, creates or deletes nothing, leaves `last_request_date` and
`subscribed_until` untouched, and running it twice equals running it
once. -/
theorem reset_daily_limits_spec (store : Store) :
    (∀ uid r, store uid = some r →
      reset_daily_limits store uid = some { r with requests_today := 0 }) ∧
    (∀ uid, store uid = none → reset_daily_limits store uid = none) ∧
    reset_daily_limits (reset_daily_limits store) = reset_daily_limits store := by
  refine ⟨?_, ?_, ?_⟩
  · intro uid r h
    unfold reset_daily_limits
    simp [h]
  · intro uid h
    unfold reset_daily_limits
    simp [h]
  · funext u
    unfold reset_daily_limits
    cases store u <;> simp

/-- C9 witness: resetting the demo table zeroes user 3's counter and keeps
their date. -/
theorem reset_daily_limits_spec_witness :
    reset_daily_limits demoStore 3 =
      some { subscribed_until := none, last_request_date := some 1
             requests_today := 0, invoice_id := none } :=
  (reset_daily_limits_spec demoStore).1 3
    { subscribed_until := none, last_request_date := some 1
      requests_today := 2, invoice_id := none } rfl

/-- C10: `update_subscription` for a user with no row matches nothing: the
store is unchanged, the user still has no record (hence no subscription),
and even a paid poll routed through `check_payment` for that user leaves
the store as it was — a confirmed payment from a never-admitted user grants
no access. -/
theorem extend_absent_user_is_noop (now now2 uid months : Nat)
    (store : Store) (h : store uid = none) :
    update_subscription now uid months store = store ∧
    (update_subscription now uid months store) uid = none ∧
    (check_payment now2 uid (ProviderReply.reply (some "paid")) store).2
      = store := by
  have key : ∀ n m, update_subscription n uid m store = store := by
    intro n m
    funext u
    unfold update_subscription updateRow
    by_cases hu : u = uid
    · subst hu; simp [h]
    · simp [hu]
  refine ⟨key now months, ?_, ?_⟩
  · rw [key now months]; exact h
  · show update_subscription now2 uid 1 store = store
    exact key now2 1

/-- C10 witness: extending the absent user 9 of the empty table. -/
theorem extend_absent_user_is_noop_witness :
    update_subscription 5 9 2 emptyStore = emptyStore ∧
    (update_subscription 5 9 2 emptyStore) 9 = none ∧
    (check_payment 7 9 (ProviderReply.reply (some "paid")) emptyStore).2
      = emptyStore :=
  extend_absent_user_is_noop 5 7 9 2 emptyStore rfl

end MistralBot
